import Mathlib

/-!
Valhalla API: a shallow embedding of the request handlers, the server composition and
the shutdown handler, with the properties of the specification stated over it.

The development follows `src/app/src/routes/api.js`, `src/app/src/routes/metrics.js`
and `src/app/src/server.js`.

* JavaScript strings are Lean strings; the string functions run on `List Char`.
* `String.prototype.toLowerCase` belongs to the JavaScript runtime.  The handlers take
  it as the argument `lower`, so every general theorem holds for whatever lowering the
  runtime implements; `asciiLower` is the instance used to evaluate concrete requests.
* `new Date().toISOString()` is a reading of the clock; handlers take it as `now`.
* A query filter (`req.query.type`, `req.query.status`) is `Option QueryValue`:
  `none` is an absent key, `some (.str s)` a key given once with the text `s`, and
  `some .nonString` the array or object the query parser builds for a repeated or
  bracketed key.
* A handler either sends a response or throws (`Handled`).
* `parseInt` and the text of a Number in a template literal are built-ins of the
  runtime; they are written out here on integers, with the rounding to a double.
-/

namespace Valhalla

/-! ## Data catalog (`api.js`, lines 4-10) -/

/-- A catalog item `{ id, name, type, status }`. -/
structure Entity where
  id : Nat
  name : String
  type : String
  status : String
deriving DecidableEq, Repr

/-- The in-memory catalog `sampleData`. -/
def sampleData : List Entity :=
  [ { id := 1, name := "Valhalla", type := "Platform", status := "active" },
    { id := 2, name := "Odin", type := "Service", status := "active" },
    { id := 3, name := "Thor", type := "Service", status := "active" },
    { id := 4, name := "Loki", type := "Service", status := "maintenance" } ]

/-! ## Responses -/

/-- The JSON (or text) bodies the server sends, one constructor per shape. -/
inductive Body where
  /-- Body `{status, timestamp, uptime}` of `/health`. -/
  | health (status timestamp uptime : String)
  /-- Body `{status, timestamp}` of `/ready`. -/
  | ready (status timestamp : String)
  /-- Body of `/api/v1/status`; `used` and `total` are the rounded megabytes. -/
  | appStatus (application version environment timestamp uptime : String)
      (used total : Nat) (unit : String)
  /-- Body `{count, data, timestamp}` of `/api/v1/data`. -/
  | dataList (count : Nat) (data : List Entity) (timestamp : String)
  /-- Body `{data, timestamp}` of `/api/v1/data/:id`. -/
  | dataItem (data : Entity) (timestamp : String)
  /-- Body `{error, message, timestamp}` of every failure response. -/
  | failure (error message timestamp : String)
  /-- A text body (`res.end(text)`), used by `/metrics`. -/
  | text (content : String)
  /-- No body (`res.end()`). -/
  | empty
  /-- The HTML error page that the final handler of Express writes. -/
  | errorPage
deriving DecidableEq, Repr

/-- An HTTP response: status code and body. -/
structure Response where
  status : Nat
  body : Body
deriving DecidableEq, Repr

/-- An exception thrown by the runtime while a handler runs: its name and message. -/
structure Thrown where
  name : String
  message : String
deriving DecidableEq, Repr

/-- The result of running a handler: it sent a response, or it threw. -/
inductive Handled where
  | sent (res : Response)
  | threw (err : Thrown)
deriving DecidableEq, Repr

/-- The `count` field of a body, when it has one. -/
def Body.count? : Body → Option Nat
  | .dataList c _ _ => some c
  | _ => none

/-- The `data` array of a body, when it has one. -/
def Body.dataArray? : Body → Option (List Entity)
  | .dataList _ d _ => some d
  | _ => none

/-- The `data` object of a body, when it has one. -/
def Body.dataObject? : Body → Option Entity
  | .dataItem d _ => some d
  | _ => none

/-- The `error` field of a body, when it has one. -/
def Body.error? : Body → Option String
  | .failure e _ _ => some e
  | _ => none

/-- The `message` field of a body, when it has one. -/
def Body.message? : Body → Option String
  | .failure _ m _ => some m
  | _ => none

/-- The `timestamp` field of a body, when it has one. -/
def Body.timestamp? : Body → Option String
  | .health _ t _ => some t
  | .ready _ t => some t
  | .appStatus _ _ _ t _ _ _ _ => some t
  | .dataList _ _ t => some t
  | .dataItem _ t => some t
  | .failure _ _ t => some t
  | _ => none

/-! ## JavaScript strings -/

/-- ASCII instance of `toLowerCase`: `A`-`Z` go to `a`-`z`, every other character stays. -/
def asciiLower (s : String) : String :=
  String.mk (s.data.map Char.toLower)

/-- Truthiness of a value that is absent or a string: an absent value (`undefined`) and
the empty string are falsy, every other string is truthy. -/
def truthy : Option String → Bool
  | none => false
  | some s => s != ""

/-- A value of `req.query` under a key that is present: a string, or the array or object
that the query parser builds for a repeated key (`?type=a&type=b`) or a bracketed key
(`?type[x]=1`). An array or object is truthy and has no `toLowerCase` method. -/
inductive QueryValue where
  | str (s : String)
  | nonString
deriving DecidableEq, Repr

/-- The TypeError of calling `v.toLowerCase()` on a value `v` without that method. -/
def notAFunction (callee : String) : Thrown :=
  { name := "TypeError", message := callee ++ ".toLowerCase is not a function" }

/-! ## `GET /api/v1/data` (`api.js`, lines 29-51) -/

/-- One `if (f) { filteredData = filteredData.filter(item => field(item).toLowerCase() ===
f.toLowerCase()) }` step of the handler. The callback runs once per item of
`filteredData`; when `f` is an array or object its call `f.toLowerCase()` throws, so the
step throws (`none`) unless `filteredData` is empty. -/
def filterStep (lower : String → String) (field : Entity → String)
    (f : Option QueryValue) (filteredData : List Entity) : Option (List Entity) :=
  match f with
  | none => some filteredData
  | some (.str v) =>
    if truthy (some v) then
      some (filteredData.filter (fun item => lower (field item) == lower v))
    else some filteredData
  | some .nonString =>
    match filteredData with
    | [] => some []
    | _ :: _ => none

/-- The handler of `router.get('/data')`. -/
def getData (lower : String → String) (now : String)
    (type status : Option QueryValue) : Handled :=
  let filteredData := sampleData
  match filterStep lower Entity.type type filteredData with
  | none => .threw (notAFunction "type")
  | some filteredData =>
    match filterStep lower Entity.status status filteredData with
    | none => .threw (notAFunction "status")
    | some filteredData =>
      .sent { status := 200
              body := .dataList filteredData.length filteredData now }

/-! ## JavaScript numbers

`parseInt` returns a Number: NaN, an infinity, or a double whose value is an integer.
A finite value is kept as sign and magnitude (the sign apart, for `-0`); the magnitude
is the exact value of the double. -/

/-- The Number values `parseInt` can produce. -/
inductive JSNumber where
  /-- The value NaN. -/
  | nan
  /-- A finite double with an integer value: `neg` is the sign bit, `mag` the magnitude. -/
  | finite (neg : Bool) (mag : Nat)
  /-- The values `Infinity` (`neg = false`) and `-Infinity`. -/
  | infinity (neg : Bool)
deriving DecidableEq, Repr

/-- The Number of a small integer literal such as an entity id. -/
def JSNumber.ofNat (n : Nat) : JSNumber := .finite false n

/-- The comparison `a === b` on Numbers: NaN equals nothing, `-0 === 0`. -/
def JSNumber.strictEq : JSNumber → JSNumber → Bool
  | .finite s m, .finite t k => m == k && (s == t || m == 0)
  | .infinity s, .infinity t => s == t
  | _, _ => false

/-- The double nearest to the positive integer `n` (round to nearest, ties to even, 53
significant bits); `none` when the result overflows to Infinity. -/
def roundToDouble (n : Nat) : Option Nat :=
  if n ≤ 2 ^ 53 then some n
  else
    let e := Nat.log 2 n - 52
    let q := n / 2 ^ e
    let r := n % 2 ^ e
    let half := 2 ^ (e - 1)
    let q := if r > half || (r == half && q % 2 == 1) then q + 1 else q
    if q * 2 ^ e < 2 ^ 1024 then some (q * 2 ^ e) else none

/-- White space that `parseInt` skips at the start (WhiteSpace and LineTerminator). -/
def isStrWhiteSpace (c : Char) : Bool :=
  let n := c.toNat
  n == 0x09 || n == 0x0A || n == 0x0B || n == 0x0C || n == 0x0D || n == 0x20 || n == 0xA0 ||
  n == 0x1680 || (0x2000 ≤ n && n ≤ 0x200A) || n == 0x2028 || n == 0x2029 ||
  n == 0x202F || n == 0x205F || n == 0x3000 || n == 0xFEFF

/-- The value of a character as a digit: `0`-`9`, then `a`-`z` or `A`-`Z` for 10-35. -/
def digitValue (c : Char) : Option Nat :=
  let n := c.toNat
  if 48 ≤ n ∧ n ≤ 57 then some (n - 48)
  else if 97 ≤ n ∧ n ≤ 122 then some (n - 87)
  else if 65 ≤ n ∧ n ≤ 90 then some (n - 55)
  else none

/-- The value of a character as a digit of radix `R`, when it is one. -/
def radixDigit (R : Nat) (c : Char) : Option Nat :=
  (digitValue c).filter (fun d => d < R)

/-- Last steps of `parseInt`: `Z` is the longest run of radix-`R` digits at the start of
`S`; NaN when `Z` is empty, else the Number of `sign * mathInt` (the digits are taken
exactly), with `-0` for a negative zero. -/
def readDigits (sign : Bool) (R : Nat) (S : List Char) : JSNumber :=
  let Z := S.takeWhile (fun c => (radixDigit R c).isSome)
  if Z.isEmpty then .nan
  else
    let mathInt := Z.foldl (fun acc c => acc * R + (radixDigit R c).getD 0) 0
    if mathInt = 0 then .finite sign 0
    else
      match roundToDouble mathInt with
      | some v => .finite sign v
      | none => .infinity sign

/-- The radix step of `parseInt` called without a radix: radix 16 after a prefix `0x` or
`0X`, which is removed, else radix 10. -/
def radixStep (sign : Bool) (S : List Char) : JSNumber :=
  match S with
  | '0' :: 'x' :: rest => readDigits sign 16 rest
  | '0' :: 'X' :: rest => readDigits sign 16 rest
  | _ => readDigits sign 10 S

/-- The built-in `parseInt(string)` called without a radix, on the characters of the
string: skip leading white space, read an optional sign, then the radix and the digits. -/
def parseIntChars (input : List Char) : JSNumber :=
  let S := input.dropWhile isStrWhiteSpace
  match S with
  | '-' :: rest => radixStep true rest
  | '+' :: rest => radixStep false rest
  | _ => radixStep false S

/-- The call `parseInt(string)` on a JavaScript string. -/
def parseInt (input : String) : JSNumber :=
  parseIntChars input.data

/-- Number of decimal digits of `n`. -/
def decimalLength (n : Nat) : Nat := (Nat.toDigits 10 n).length

/-- The pairs `(s, n)` with `s` of exactly `k` digits, `k ≤ n`, for which `s * 10^(n-k)`
rounds to the double `x`. -/
def candidates (x k : Nat) : List (Nat × Nat) :=
  let d := decimalLength x
  [(x / 10 ^ (d - k), d), (x / 10 ^ (d - k) + 1, d),
   (x / 10 ^ (d + 1 - k), d + 1), (x / 10 ^ (d + 1 - k) + 1, d + 1)].filter
    fun c => k ≤ c.2 && 10 ^ (k - 1) ≤ c.1 && c.1 < 10 ^ k &&
      roundToDouble (c.1 * 10 ^ (c.2 - k)) == some x

/-- Distance of two naturals. -/
def dist (a b : Nat) : Nat := (a - b) + (b - a)

/-- Of two candidates keep the one closer to `x`; on equal distance the even `s`. -/
def better (x k : Nat) (a b : Nat × Nat) : Nat × Nat :=
  let da := dist (a.1 * 10 ^ (a.2 - k)) x
  let db := dist (b.1 * 10 ^ (b.2 - k)) x
  if db < da || (db == da && b.1 % 2 == 0 && a.1 % 2 == 1) then b else a

/-- Search `k, k+1, ...` for the least digit count with a candidate; the result is
`(s, k, n)`. Seventeen digits always identify a double. -/
def shortest (x : Nat) : Nat → Nat → Nat × Nat × Nat
  | 0, _ => (x, decimalLength x, decimalLength x)
  | fuel + 1, k =>
    match candidates x k with
    | [] => shortest x fuel (k + 1)
    | c :: cs =>
      let b := cs.foldl (better x k) c
      (b.1, k, b.2)

/-- The text of a positive integer-valued double `x` (Number::toString, radix 10): up to
`2^53` the decimal expansion; above, the shortest digits that read back as `x`, padded with
zeros up to 21 digits and in exponent form beyond. -/
def magnitudeToString (x : Nat) : String :=
  if x ≤ 2 ^ 53 then Nat.repr x
  else
    let (s, k, n) := shortest x 17 1
    let ds := Nat.toDigits 10 s
    if n ≤ 21 then String.mk (ds ++ List.replicate (n - k) '0')
    else if k = 1 then String.mk ds ++ "e+" ++ Nat.repr (n - 1)
    else String.mk (ds.take 1) ++ "." ++ String.mk (ds.drop 1) ++ "e+" ++ Nat.repr (n - 1)

/-- The text a template literal inserts for a Number. -/
def numberToString : JSNumber → String
  | .nan => "NaN"
  | .infinity false => "Infinity"
  | .infinity true => "-Infinity"
  | .finite neg mag =>
    if mag = 0 then "0"
    else if neg then "-" ++ magnitudeToString mag
    else magnitudeToString mag

/-- The decimal text of an integer, as a client writes it in the path. -/
def decimalText : Int → String
  | .ofNat m => Nat.repr m
  | .negSucc m => "-" ++ Nat.repr (m + 1)

/-! ## `GET /api/v1/data/:id` (`api.js`, lines 54-70) -/

/-- The handler of `router.get('/data/:id')`; `param` is `req.params.id`. -/
def getDataById (now : String) (param : String) : Response :=
  let id := parseInt param
  let item := sampleData.find? (fun d => JSNumber.strictEq (JSNumber.ofNat d.id) id)
  match item with
  | some item =>
    { status := 200
      body := .dataItem item now }
  | none =>
    { status := 404
      body := .failure "Not Found" ("Item with id " ++ numberToString id ++ " not found") now }

/-! ## Server (`server.js`)

The third-party middleware (`helmet()`, `cors()`, `express.json()`) and the route matching
of Express are not code of the repository: the server takes them as a `Platform`.  The
clock, the environment variables and the process readings come in an `Env`. -/

/-- The request object a handler sees. -/
structure Request where
  /-- Field `req.method`. -/
  method : String
  /-- Field `req.url`: path and query string. -/
  url : String
  /-- Field `req.query.type`. -/
  queryType : Option QueryValue
  /-- Field `req.query.status`. -/
  queryStatus : Option QueryValue
  /-- Field `req.params.id`, set when the route `/data/:id` matches. -/
  paramId : String
  /-- Result of `req.get('user-agent')`. -/
  userAgent : Option String
deriving DecidableEq, Repr

/-- An error passed to `next(err)` or thrown: `err.status` (absent or a number),
`err.message` and `err.stack`. -/
structure JSError where
  status : Option Nat
  message : String
  stack : String
deriving DecidableEq, Repr

/-- What a middleware does with a request: call `next()`, send a response, or fail. -/
inductive Outcome where
  | next
  | respond (r : Response)
  | fail (err : JSError)
deriving DecidableEq, Repr

/-- Run `k` when `o` called `next()`; a response or a failure ends the chain. -/
def Outcome.andThen (o k : Outcome) : Outcome :=
  match o with
  | .next => k
  | other => other

/-- The six registered routes, in the order of registration. -/
inductive Route where
  /-- Route `app.get('/health')`. -/
  | health
  /-- Route `app.get('/ready')`. -/
  | ready
  /-- Route `router.get('/')` of the router mounted at `/metrics`. -/
  | metrics
  /-- Route `router.get('/status')` of the router mounted at `/api/v1`. -/
  | apiStatus
  /-- Route `router.get('/data')` of the router mounted at `/api/v1`. -/
  | apiData
  /-- Route `router.get('/data/:id')` of the router mounted at `/api/v1`. -/
  | apiDataId
deriving DecidableEq, Repr

/-- The runtime and the libraries under the server. -/
structure Platform where
  /-- The built-in `String.prototype.toLowerCase`. -/
  toLowerCase : String → String
  /-- The middleware `helmet()`. -/
  helmet : Request → Outcome
  /-- The middleware `cors()`. -/
  cors : Request → Outcome
  /-- The middleware `express.json()`. -/
  json : Request → Outcome
  /-- Whether Express matches the method and path of a request to a registered route. -/
  routeMatches : Route → Request → Bool

/-- Readings a request handler takes from the process and the clock. -/
structure Env where
  /-- Variable `process.env.NODE_ENV`. -/
  nodeEnv : Option String
  /-- Reading `new Date().toISOString()`. -/
  now : String
  /-- Reading `process.uptime()`, as text. -/
  uptime : String
  /-- Reading `process.memoryUsage().heapUsed`, in bytes. -/
  heapUsed : Nat
  /-- Reading `process.memoryUsage().heapTotal`, in bytes. -/
  heapTotal : Nat
  /-- Result of `await register.metrics()`. -/
  metricsText : String
  /-- Reading `Date.now()` when the request-logging middleware runs. -/
  start : Int
  /-- Reading `Date.now()` when the response finishes. -/
  finish : Int
  /-- Text of `err.stack` that the runtime gives an error thrown while the request is
  handled. -/
  stack : String
deriving DecidableEq, Repr

/-- One call of the logger: level, message, metadata. -/
structure LogCall where
  level : String
  message : String
  meta : List (String × Option String)
deriving DecidableEq, Repr

/-- The label set `['method', 'route', 'status_code']` of both custom metrics. -/
structure Labels where
  method : String
  route : String
  statusCode : String
deriving DecidableEq, Repr

/-- The custom metrics of `metrics.js`: the observations of the histogram
`http_request_duration_seconds` and the increments of the counter `http_requests_total`,
both per label set. -/
structure Registry where
  httpRequestDuration : List (Labels × Nat)
  httpRequestTotal : List Labels
deriving DecidableEq, Repr

/-- The value of `http_requests_total` for a label set. -/
def Registry.total (r : Registry) (l : Labels) : Nat :=
  r.httpRequestTotal.count l

/-- The number of observations `http_request_duration_seconds` has received. -/
def Registry.observations (r : Registry) : Nat :=
  r.httpRequestDuration.length

/-- The mutable state of the running server: the logger calls made and the registry. -/
structure ServerState where
  log : List LogCall
  registry : Registry
deriving DecidableEq, Repr

/-- The expression `v || d` on an environment variable. -/
def orDefault (v : Option String) (d : String) : String :=
  match v with
  | some s => if truthy (some s) then s else d
  | none => d

/-- The expression `Math.round(bytes / 1024 / 1024)`. -/
def roundMB (bytes : Nat) : Nat :=
  (bytes + 524288) / 1048576

/-- The handler of `app.get('/health')`. -/
def healthHandler (env : Env) : Response :=
  { status := 200
    body := .health "healthy" env.now env.uptime }

/-- The handler of `app.get('/ready')`. -/
def readyHandler (env : Env) : Response :=
  let isReady := true
  if isReady then
    { status := 200
      body := .ready "ready" env.now }
  else
    { status := 503
      body := .ready "not ready" env.now }

/-- The handler of `router.get('/')` in `metrics.js`. -/
def metricsHandler (env : Env) : Response :=
  { status := 200
    body := .text env.metricsText }

/-- The handler of `router.get('/status')`. -/
def statusHandler (env : Env) : Response :=
  { status := 200
    body := .appStatus "Valhalla API" "1.0.0" (orDefault env.nodeEnv "development")
      env.now env.uptime (roundMB env.heapUsed) (roundMB env.heapTotal) "MB" }

/-- The 404 handler (`server.js`, lines 62-69). -/
def notFoundHandler (env : Env) (req : Request) : Response :=
  { status := 404
    body := .failure "Not Found" ("Cannot " ++ req.method ++ " " ++ req.url) env.now }

/-- The expression `err.status || 500`. -/
def statusOr500 (status : Option Nat) : Nat :=
  match status with
  | some s => if s != 0 then s else 500
  | none => 500

/-- The status codes that Express and Node send without a body: 1xx, 204, 205, 304. -/
def bodiless (code : Nat) : Bool :=
  (100 ≤ code && code ≤ 199) || code == 204 || code == 205 || code == 304

/-- The call `res.status(code).json(body)`: Node sends only the status codes 100 to
999 and throws a RangeError on any other; a bodiless status code goes out without the
body. -/
def sendJson (code : Nat) (body : Body) : Handled :=
  if 100 ≤ code ∧ code ≤ 999 then
    if bodiless code then .sent { status := code, body := .empty }
    else .sent { status := code, body := body }
  else
    .threw { name := "RangeError", message := "Invalid status code: " ++ toString code }

/-- The error-handling middleware (`server.js`, lines 71-85), after its logger call. -/
def errorHandler (env : Env) (err : JSError) : Handled :=
  sendJson (statusOr500 err.status)
    (.failure "Internal Server Error"
      (if env.nodeEnv == some "production" then "An error occurred" else err.message)
      env.now)

/-- The final handler of Express, which answers when the error-handling middleware itself
throws: status 500 and an HTML page. -/
def finalHandler : Response :=
  { status := 500, body := .errorPage }

/-- The response to a request that ended in an error. -/
def errorResponse (env : Env) (err : JSError) : Response :=
  match errorHandler env err with
  | .sent res => res
  | .threw _ => finalHandler

/-- The error object of an exception thrown by the runtime: no `status`. -/
def JSError.ofThrown (env : Env) (t : Thrown) : JSError :=
  { status := none, message := t.message, stack := env.stack }

/-- The logger call of the error-handling middleware. -/
def errorLog (err : JSError) (req : Request) : LogCall :=
  { level := "error"
    message := "Unhandled error"
    meta := [("error", some err.message), ("stack", some err.stack),
      ("url", some req.url), ("method", some req.method)] }

/-- The logger call of the request-logging middleware when the response finishes. -/
def requestLog (env : Env) (req : Request) (res : Response) : LogCall :=
  let duration := env.finish - env.start
  { level := "info"
    message := "HTTP Request"
    meta := [("method", some req.method), ("url", some req.url),
      ("status", some (toString res.status)), ("duration", some (toString duration ++ "ms")),
      ("userAgent", req.userAgent)] }

/-- The routes and the 404 handler, tried in the order of registration. -/
def routes (pf : Platform) (env : Env) (req : Request) : Handled :=
  if pf.routeMatches .health req then .sent (healthHandler env)
  else if pf.routeMatches .ready req then .sent (readyHandler env)
  else if pf.routeMatches .metrics req then .sent (metricsHandler env)
  else if pf.routeMatches .apiStatus req then .sent (statusHandler env)
  else if pf.routeMatches .apiData req then
    getData pf.toLowerCase env.now req.queryType req.queryStatus
  else if pf.routeMatches .apiDataId req then .sent (getDataById env.now req.paramId)
  else .sent (notFoundHandler env req)

/-- The application: `helmet()`, `cors()`, `express.json()`, the request-logging
middleware, then the routes; a failure or an exception goes to the error-handling
middleware. The result is the response sent and the state afterwards. -/
def app (pf : Platform) (env : Env) (req : Request) (st : ServerState) :
    Response × ServerState :=
  match (pf.helmet req).andThen ((pf.cors req).andThen (pf.json req)) with
  | .respond r => (r, st)
  | .fail err => (errorResponse env err, { st with log := st.log ++ [errorLog err req] })
  | .next =>
    match routes pf env req with
    | .sent res => (res, { st with log := st.log ++ [requestLog env req res] })
    | .threw t =>
      let err := JSError.ofThrown env t
      let res := errorResponse env err
      (res, { st with log := st.log ++ [errorLog err req, requestLog env req res] })

/-! ## Shutdown (`server.js`, lines 87-103) -/

/-- The process around the server: logger calls, the calls of `server.close`, the delays
of the armed force-exit timers, and the exit code once the process has exited. -/
structure Process where
  log : List LogCall
  closeCalls : Nat
  forceTimers : List Nat
  exitCode : Option Nat
deriving DecidableEq, Repr

/-- What can happen to the process. -/
inductive Event where
  /-- Signal SIGTERM is delivered. -/
  | sigterm
  /-- Signal SIGINT is delivered. -/
  | sigint
  /-- The server has closed: the callback of `server.close` runs. -/
  | closed
  /-- The 10-second timer fires. -/
  | timeout
deriving DecidableEq, Repr

/-- The body of `gracefulShutdown`: log, call `server.close(...)`, arm the timer. -/
def gracefulShutdown (p : Process) : Process :=
  { p with
    log := p.log ++ [{ level := "info"
                       message := "Received shutdown signal, closing server gracefully..."
                       meta := [] }]
    closeCalls := p.closeCalls + 1
    forceTimers := p.forceTimers ++ [10000] }

/-- One step of the process. An exited process does nothing more; the callbacks run only
when `gracefulShutdown` has registered them. -/
def step (p : Process) (e : Event) : Process :=
  match p.exitCode with
  | some _ => p
  | none =>
    match e with
    | .sigterm => gracefulShutdown p
    | .sigint => gracefulShutdown p
    | .closed =>
      if p.closeCalls = 0 then p
      else
        { p with
          log := p.log ++ [{ level := "info", message := "Server closed successfully", meta := [] }]
          exitCode := some 0 }
    | .timeout =>
      if p.forceTimers.isEmpty then p
      else
        { p with
          log := p.log ++
            [{ level := "error"
               message := "Could not close connections in time, forcefully shutting down"
               meta := [] }]
          exitCode := some 1 }

/-- The process after a sequence of events. -/
def run (p : Process) (events : List Event) : Process :=
  events.foldl step p

/-- The listening server before any signal. -/
def listening : Process :=
  { log := [], closeCalls := 0, forceTimers := [], exitCode := none }

/-! ## Instances for evaluating concrete requests -/

/-- The path of a URL: the text before the query string. -/
def pathOf (url : String) : List Char :=
  url.data.takeWhile (fun c => c != '?')

/-- A platform for concrete requests without a body: `helmet()` and `express.json()` pass
the request on, `cors()` with its default options answers an `OPTIONS` request itself
(204, no body) and passes every other method on, and a route matches a `GET` or `HEAD`
request whose path is the path of the route. -/
def referencePlatform : Platform where
  toLowerCase := asciiLower
  helmet := fun _ => .next
  cors := fun req =>
    if req.method == "OPTIONS" then .respond { status := 204, body := .empty } else .next
  json := fun _ => .next
  routeMatches := fun r req =>
    (req.method == "GET" || req.method == "HEAD") &&
    match r with
    | .health => pathOf req.url == "/health".data
    | .ready => pathOf req.url == "/ready".data
    | .metrics => pathOf req.url == "/metrics".data
    | .apiStatus => pathOf req.url == "/api/v1/status".data
    | .apiData => pathOf req.url == "/api/v1/data".data
    | .apiDataId => pathOf req.url == "/api/v1/data/".data ++ req.paramId.data &&
        req.paramId != "" && !req.paramId.data.contains '/'

/-- Sample readings of the environment. -/
def sampleEnv : Env :=
  { nodeEnv := none, now := "2024-01-01T00:00:00.000Z", uptime := "1.5",
    heapUsed := 20000000, heapTotal := 40000000, metricsText := "",
    start := 1704067200000, finish := 1704067200003,
    stack := "TypeError\n    at /app/src/routes/api.js" }

/-- A `GET` request for a URL, without query parameters. -/
def getRequest (url : String) : Request :=
  { method := "GET", url := url, queryType := none, queryStatus := none,
    paramId := "", userAgent := none }

/-- The state of a freshly started server. -/
def freshState : ServerState :=
  { log := [], registry := { httpRequestDuration := [], httpRequestTotal := [] } }

/-- A request with the method `OPTIONS` for a URL. -/
def optionsRequest (url : String) : Request :=
  { method := "OPTIONS", url := url, queryType := none, queryStatus := none,
    paramId := "", userAgent := none }

/-- A `GET` request for `/api/v1/data?type=a&type=b`: the repeated key makes
`req.query.type` an array. -/
def repeatedTypeRequest : Request :=
  { method := "GET", url := "/api/v1/data?type=a&type=b", queryType := some .nonString,
    queryStatus := none, paramId := "", userAgent := none }

/-- An error with `err.status = 99`, which is no status code Node sends. -/
def oddStatusError : JSError :=
  { status := some 99, message := "odd", stack := "" }

/-- An error with `err.status = 204`, a status code sent without a body. -/
def noContentError : JSError :=
  { status := some 204, message := "nothing", stack := "" }

/-- The sample readings with `NODE_ENV=production`. -/
def productionEnv : Env := { sampleEnv with nodeEnv := some "production" }

/-- An error with `err.status = 404`, as a handler would pass to `next(err)`. -/
def notFoundError : JSError :=
  { status := some 404, message := "User 7 does not exist", stack := "" }

/-! ## Notions used to state the properties -/

/-- The constraint a filter puts on an entity in the handler: none when the filter is
absent or the empty string, else equality of the lowered texts. -/
def constrains (lower : String → String) (field : Entity → String)
    (f : Option String) (e : Entity) : Bool :=
  match f with
  | some v => v == "" || lower (field e) == lower v
  | none => true

/-- The constraint as the contract words it: equality ignoring case whenever a filter is
provided, none when it is omitted. -/
def claimedConstrains (lower : String → String) (field : Entity → String)
    (f : Option String) (e : Entity) : Bool :=
  match f with
  | some v => lower (field e) == lower v
  | none => true

/-- The characters `0`-`9`. -/
def isDecimalDigit (c : Char) : Bool := 48 ≤ c.toNat && c.toNat ≤ 57

/-- The value of a list of decimal digits. -/
def decimalValue (l : List Char) : Nat :=
  l.foldl (fun acc c => acc * 10 + (radixDigit 10 c).getD 0) 0

/-- The text of a path parameter after leading white space and an optional sign. -/
def numericStart (input : List Char) : List Char :=
  match input.dropWhile isStrWhiteSpace with
  | '-' :: rest => rest
  | '+' :: rest => rest
  | S => S

/-! ## The filter steps of `GET /api/v1/data` -/

theorem filterStep_eq (lower : String → String) (field : Entity → String)
    (f : Option String) (l : List Entity) :
    filterStep lower field (f.map QueryValue.str) l =
      some (l.filter (constrains lower field f)) := by
  cases f with
  | none =>
    have h : constrains lower field none = fun _ => true := rfl
    simp [filterStep, h]
  | some v =>
    by_cases hv : v = ""
    · subst hv
      have h : constrains lower field (some "") = fun _ => true := by
        funext e
        simp [constrains]
      simp [filterStep, truthy, h]
    · have h : constrains lower field (some v) = fun e => lower (field e) == lower v := by
        funext e
        simp [constrains, hv]
      simp [filterStep, truthy, h, hv]

theorem getData_strings (lower : String → String) (now : String)
    (type status : Option String) :
    getData lower now (type.map .str) (status.map .str) =
      .sent
        { status := 200
          body := .dataList
            (sampleData.filter fun e =>
              constrains lower Entity.type type e &&
              constrains lower Entity.status status e).length
            (sampleData.filter fun e =>
              constrains lower Entity.type type e &&
              constrains lower Entity.status status e) now } := by
  simp [getData, filterStep_eq, List.filter_filter, Bool.and_comm]

/-! ## Decimal texts and `parseInt` -/

theorem digitChar_spec (k : Nat) (h : k < 10) :
    isDecimalDigit (Nat.digitChar k) = true ∧ radixDigit 10 (Nat.digitChar k) = some k := by
  interval_cases k <;> exact ⟨by decide, by decide⟩

theorem toDigitsCore_spec (fuel : Nat) : ∀ (n : Nat) (ds : List Char), n < fuel →
    ∃ l, Nat.toDigitsCore 10 fuel n ds = l ++ ds ∧ l ≠ [] ∧
      (∀ c ∈ l, isDecimalDigit c = true) ∧ decimalValue l = n := by
  induction fuel with
  | zero => intro n ds h; omega
  | succ fuel ih =>
    intro n ds h
    obtain ⟨hd, hv⟩ := digitChar_spec (n % 10) (Nat.mod_lt _ (by decide))
    by_cases h0 : n / 10 = 0
    · refine ⟨[Nat.digitChar (n % 10)], ?_, by simp, ?_, ?_⟩
      · simp [Nat.toDigitsCore, h0]
      · simpa using hd
      · simp [decimalValue, hv]
        omega
    · obtain ⟨l, hl, _, hdig, hval⟩ := ih (n / 10) (Nat.digitChar (n % 10) :: ds) (by omega)
      refine ⟨l ++ [Nat.digitChar (n % 10)], ?_, by simp, ?_, ?_⟩
      · simp [Nat.toDigitsCore, h0, hl]
      · intro c hc
        rcases List.mem_append.mp hc with hc | hc
        · exact hdig c hc
        · simp at hc
          subst hc
          exact hd
      · unfold decimalValue at hval ⊢
        rw [List.foldl_append, hval]
        simp [hv]
        omega

theorem toDigits_spec (n : Nat) :
    Nat.toDigits 10 n ≠ [] ∧ (∀ c ∈ Nat.toDigits 10 n, isDecimalDigit c = true) ∧
      decimalValue (Nat.toDigits 10 n) = n := by
  obtain ⟨l, hl, hne, hd, hv⟩ := toDigitsCore_spec (n + 1) n [] (by omega)
  simp at hl
  unfold Nat.toDigits
  rw [hl]
  exact ⟨hne, hd, hv⟩

theorem radixDigit_isSome_of_decimal (c : Char) (h : isDecimalDigit c = true) :
    (radixDigit 10 c).isSome = true := by
  simp only [isDecimalDigit, Bool.and_eq_true, decide_eq_true_eq] at h
  have h2 : c.toNat - 48 < 10 := by omega
  simp [radixDigit, digitValue, h.1, h.2, Option.filter, h2]

theorem radixDigit_none_of_not_decimal (c : Char) (h : isDecimalDigit c = false) :
    radixDigit 10 c = none := by
  simp only [isDecimalDigit, Bool.and_eq_false_iff, decide_eq_false_iff_not] at h
  unfold radixDigit digitValue
  simp only []
  split_ifs with h1 h2 h3
  · omega
  · simp [Option.filter]
    omega
  · simp [Option.filter]
    omega
  · rfl

theorem not_white_of_decimal (c : Char) (h : isDecimalDigit c = true) :
    isStrWhiteSpace c = false := by
  simp only [isDecimalDigit, Bool.and_eq_true, decide_eq_true_eq] at h
  simp [isStrWhiteSpace]
  omega

theorem readDigits_decimal (sign : Bool) (l : List Char) (hne : l ≠ [])
    (hd : ∀ c ∈ l, isDecimalDigit c = true) :
    readDigits sign 10 l =
      if decimalValue l = 0 then .finite sign 0
      else match roundToDouble (decimalValue l) with
        | some v => .finite sign v
        | none => .infinity sign := by
  have ht : l.takeWhile (fun c => (radixDigit 10 c).isSome) = l :=
    List.takeWhile_eq_self_iff.mpr fun c hc => radixDigit_isSome_of_decimal c (hd c hc)
  simp [readDigits, ht, hne, decimalValue]

theorem radixStep_decimal (sign : Bool) (l : List Char)
    (hd : ∀ c ∈ l, isDecimalDigit c = true) :
    radixStep sign l = readDigits sign 10 l := by
  unfold radixStep
  split
  · exact absurd (hd 'x' (by simp)) (by decide)
  · exact absurd (hd 'X' (by simp)) (by decide)
  · rfl

theorem radixStep_no_digit (sign : Bool) (S : List Char)
    (h : ∀ c, S.head? = some c → isDecimalDigit c = false) :
    radixStep sign S = .nan := by
  unfold radixStep
  split
  · exact absurd (h '0' rfl) (by decide)
  · exact absurd (h '0' rfl) (by decide)
  · cases S with
    | nil => rfl
    | cons c t =>
      have hc := radixDigit_none_of_not_decimal c (h c rfl)
      simp [readDigits, List.takeWhile_cons, hc]

theorem parseIntChars_decimal (l : List Char) (hne : l ≠ [])
    (hd : ∀ c ∈ l, isDecimalDigit c = true) :
    parseIntChars l = radixStep false l ∧ parseIntChars ('-' :: l) = radixStep true l := by
  constructor
  · cases l with
    | nil => exact absurd rfl hne
    | cons c t =>
      have hc := hd c (by simp)
      have hw := not_white_of_decimal c hc
      unfold parseIntChars
      simp only [List.dropWhile_cons, hw]
      split
      · rename_i rest h
        simp at h
        rw [h.1] at hc
        exact absurd hc (by decide)
      · rename_i rest h
        simp at h
        rw [h.1] at hc
        exact absurd hc (by decide)
      · simp
  · unfold parseIntChars
    have : isStrWhiteSpace '-' = false := by decide
    simp [List.dropWhile_cons, this]

theorem parseIntChars_numericStart (input : List Char) :
    ∃ sign, parseIntChars input = radixStep sign (numericStart input) := by
  unfold parseIntChars numericStart
  simp only []
  split
  · exact ⟨true, rfl⟩
  · exact ⟨false, rfl⟩
  · exact ⟨false, rfl⟩

theorem parseInt_no_digit (param : String)
    (h : ∀ c, (numericStart param.data).head? = some c → isDecimalDigit c = false) :
    parseInt param = .nan := by
  obtain ⟨sign, hs⟩ := parseIntChars_numericStart param.data
  rw [parseInt, hs, radixStep_no_digit sign _ h]

/-! ## Rounding to a double -/

theorem roundToDouble_small (n : Nat) (h : n ≤ 2 ^ 53) : roundToDouble n = some n := by
  rw [roundToDouble, if_pos h]

theorem roundToDouble_large (n v : Nat) (h : 2 ^ 53 < n) (hv : roundToDouble n = some v) :
    2 ^ 53 ≤ v := by
  have hn : n ≠ 0 := by
    have : 0 < 2 ^ 53 := by positivity
    omega
  have hlog : 53 ≤ Nat.log 2 n := Nat.le_log_of_pow_le (by decide) (le_of_lt h)
  have hpow : 2 ^ Nat.log 2 n ≤ n := Nat.pow_log_le_self 2 hn
  obtain ⟨e, he⟩ : ∃ e, Nat.log 2 n = e + 52 := ⟨Nat.log 2 n - 52, by omega⟩
  have he1 : 1 ≤ e := by omega
  have hsplit : 2 ^ Nat.log 2 n = 2 ^ 52 * 2 ^ e := by rw [he, pow_add, mul_comm]
  have hq : 2 ^ 52 ≤ n / 2 ^ e := by
    rw [Nat.le_div_iff_mul_le (by positivity)]
    rw [hsplit] at hpow
    exact hpow
  have h2e : 2 ≤ 2 ^ e := by
    calc 2 = 2 ^ 1 := by norm_num
      _ ≤ 2 ^ e := Nat.pow_le_pow_right (by decide) he1
  have hnot : ¬ n ≤ 2 ^ 53 := by omega
  simp only [roundToDouble, hnot, if_false, he, Nat.add_sub_cancel] at hv
  split at hv
  · split at hv
    · simp only [Option.some.injEq] at hv
      rw [← hv]
      calc 2 ^ 53 = 2 ^ 52 * 2 := by norm_num
        _ ≤ (n / 2 ^ e + 1) * 2 ^ e := Nat.mul_le_mul (by omega) h2e
    · exact absurd hv (by simp)
  · split at hv
    · simp only [Option.some.injEq] at hv
      rw [← hv]
      calc 2 ^ 53 = 2 ^ 52 * 2 := by norm_num
        _ ≤ (n / 2 ^ e) * 2 ^ e := Nat.mul_le_mul hq h2e
    · exact absurd hv (by simp)

theorem log_two_example : Nat.log 2 9007199254740993 = 53 := by
  rw [Nat.log_eq_iff (Or.inl (by decide))]
  constructor <;> norm_num

theorem roundToDouble_example : roundToDouble 9007199254740993 = some 9007199254740992 := by
  have hnot : ¬ (9007199254740993 ≤ 2 ^ 53) := by norm_num
  simp only [roundToDouble, hnot, if_false, log_two_example]
  norm_num

/-! ## `parseInt` on the decimal text of an integer -/

theorem parseInt_decimalText (z : Int) :
    parseInt (decimalText z) =
      if z.natAbs = 0 then .finite (decide (z < 0)) 0
      else match roundToDouble z.natAbs with
        | some v => .finite (decide (z < 0)) v
        | none => .infinity (decide (z < 0)) := by
  cases z with
  | ofNat m =>
    obtain ⟨hne, hd, hv⟩ := toDigits_spec m
    have hdata : (decimalText (Int.ofNat m)).data = Nat.toDigits 10 m := rfl
    have hneg : decide (Int.ofNat m < 0) = false := by simp
    rw [parseInt, hdata, (parseIntChars_decimal _ hne hd).1, radixStep_decimal _ _ hd,
      readDigits_decimal _ _ hne hd, hv, hneg]
    rfl
  | negSucc m =>
    obtain ⟨hne, hd, hv⟩ := toDigits_spec (m + 1)
    have hdata : (decimalText (Int.negSucc m)).data = '-' :: Nat.toDigits 10 (m + 1) := rfl
    have hneg : decide (Int.negSucc m < 0) = true := by simp [Int.negSucc_lt_zero]
    rw [parseInt, hdata, (parseIntChars_decimal _ hne hd).2, radixStep_decimal _ _ hd,
      readDigits_decimal _ _ hne hd, hv, hneg]
    rfl

theorem parseInt_repr (m : Nat) :
    parseInt (Nat.repr m) =
      if m = 0 then .finite false 0
      else match roundToDouble m with
        | some v => .finite false v
        | none => .infinity false := by
  have h := parseInt_decimalText (Int.ofNat m)
  simpa [decimalText] using h

theorem parseInt_example : parseInt "9007199254740993" = .finite false 9007199254740992 := by
  have h : "9007199254740993" = Nat.repr 9007199254740993 := by decide
  rw [h, parseInt_repr, if_neg (by decide), roundToDouble_example]

theorem magnitudeToString_safe (m : Nat) (h : m ≤ 2 ^ 53) :
    magnitudeToString m = Nat.repr m := by
  rw [magnitudeToString, if_pos h]

theorem numberToString_parseInt_safe (id : Int) (h : id.natAbs ≤ 2 ^ 53) :
    numberToString (parseInt (decimalText id)) = decimalText id := by
  rw [parseInt_decimalText]
  cases id with
  | ofNat m =>
    have hm : m ≤ 2 ^ 53 := h
    by_cases h0 : m = 0
    · subst h0
      rfl
    · have hr := roundToDouble_small m hm
      simp only [Int.ofNat_eq_coe, Int.natAbs_ofNat, h0, if_false, hr]
      simp only [numberToString, h0, if_false, magnitudeToString_safe m hm, decimalText]
      have hnn : ¬ ((m : Int) < 0) := by omega
      simp [hnn]
  | negSucc m =>
    have hm : m + 1 ≤ 2 ^ 53 := h
    have hr := roundToDouble_small (m + 1) hm
    have hneg : decide (Int.negSucc m < 0) = true := by simp [Int.negSucc_lt_zero]
    simp only [Int.natAbs_negSucc, Nat.succ_eq_add_one, Nat.add_one_ne_zero, if_false, hr]
    simp only [numberToString, Nat.add_one_ne_zero, if_false, magnitudeToString_safe _ hm,
      decimalText, hneg, if_true]

theorem decimalText_chars (z : Int) :
    ∀ c ∈ (decimalText z).data, isDecimalDigit c = true ∨ c = '-' := by
  cases z with
  | ofNat m =>
    intro c hc
    exact Or.inl ((toDigits_spec m).2.1 c hc)
  | negSucc m =>
    intro c hc
    have hdata : (decimalText (Int.negSucc m)).data = '-' :: Nat.toDigits 10 (m + 1) := rfl
    rw [hdata] at hc
    rcases List.mem_cons.mp hc with h | h
    · exact Or.inr h
    · exact Or.inl ((toDigits_spec (m + 1)).2.1 c h)

/-! ## The two branches of `GET /api/v1/data/:id` -/

theorem getDataById_miss (now param : String)
    (h : ∀ d ∈ sampleData, JSNumber.strictEq (JSNumber.ofNat d.id) (parseInt param) = false) :
    getDataById now param =
      { status := 404
        body := .failure "Not Found"
          ("Item with id " ++ numberToString (parseInt param) ++ " not found") now } := by
  have hf : sampleData.find? (fun d => JSNumber.strictEq (JSNumber.ofNat d.id) (parseInt param))
      = none := by
    rw [List.find?_eq_none]
    intro d hd
    simp [h d hd]
  simp only [getDataById, hf]

theorem getDataById_hit (now param : String) (e : Entity) (he : e ∈ sampleData)
    (h : parseInt param = JSNumber.ofNat e.id) :
    getDataById now param = { status := 200, body := .dataItem e now } := by
  simp only [sampleData, List.mem_cons, List.mem_singleton, List.not_mem_nil, or_false] at he
  rcases he with rfl | rfl | rfl | rfl <;> simp only [getDataById, h] <;> rfl

theorem strictEq_unknown (id : Int) (h : ∀ e ∈ sampleData, (e.id : Int) ≠ id) :
    ∀ d ∈ sampleData,
      JSNumber.strictEq (JSNumber.ofNat d.id) (parseInt (decimalText id)) = false := by
  intro d hd
  have hid := h d hd
  have hrange : 1 ≤ d.id ∧ d.id ≤ 4 := by
    simp only [sampleData, List.mem_cons, List.mem_singleton, List.not_mem_nil, or_false] at hd
    rcases hd with rfl | rfl | rfl | rfl <;> simp
  rw [parseInt_decimalText]
  split_ifs with h0
  · simp [JSNumber.strictEq, JSNumber.ofNat]
    omega
  · split
    · rename_i v hv
      by_cases hs : id.natAbs ≤ 2 ^ 53
      · rw [roundToDouble_small _ hs] at hv
        simp only [Option.some.injEq] at hv
        subst hv
        by_cases hneg : id < 0
        · simp [JSNumber.strictEq, JSNumber.ofNat, hneg]
          omega
        · simp [JSNumber.strictEq, JSNumber.ofNat, hneg]
          omega
      · have hv2 := roundToDouble_large _ v (by omega) hv
        have : d.id ≠ v := by
          have : (4 : Nat) < 2 ^ 53 := by norm_num
          omega
        simp [JSNumber.strictEq, JSNumber.ofNat, this]
    · rfl

/-! ## Server and shutdown -/

theorem routes_unmatched (pf : Platform) (env : Env) (req : Request)
    (hr : ∀ r, pf.routeMatches r req = false) :
    routes pf env req = .sent (notFoundHandler env req) := by
  simp [routes, hr]

theorem errorHandler_sendable (env : Env) (err : JSError)
    (h : 100 ≤ statusOr500 err.status ∧ statusOr500 err.status ≤ 999) :
    (errorResponse env err).status = statusOr500 err.status := by
  simp only [errorResponse, errorHandler, sendJson, h, and_self, if_true]
  split_ifs <;> rfl

theorem errorHandler_with_body (env : Env) (err : JSError)
    (h : 100 ≤ statusOr500 err.status ∧ statusOr500 err.status ≤ 999)
    (hb : bodiless (statusOr500 err.status) = false) :
    errorResponse env err =
      { status := statusOr500 err.status
        body := .failure "Internal Server Error"
          (if env.nodeEnv == some "production" then "An error occurred" else err.message)
          env.now } := by
  simp [errorResponse, errorHandler, sendJson, h, hb]

theorem bodiless_false (s : Nat) (h2 : 200 ≤ s) (h204 : s ≠ 204) (h205 : s ≠ 205)
    (h304 : s ≠ 304) : bodiless s = false := by
  simp [bodiless, h204, h205, h304]
  omega

theorem errorHandler_not_sendable (env : Env) (err : JSError)
    (h : ¬ (100 ≤ statusOr500 err.status ∧ statusOr500 err.status ≤ 999)) :
    errorResponse env err = finalHandler := by
  simp only [errorResponse, errorHandler, sendJson, h, if_false]

theorem run_signals (signals : List Event) (h : ∀ e ∈ signals, e = .sigterm ∨ e = .sigint) :
    ∀ p : Process, p.exitCode = none →
      (run p signals).closeCalls = p.closeCalls + signals.length ∧
      (run p signals).forceTimers = p.forceTimers ++ List.replicate signals.length 10000 ∧
      (run p signals).exitCode = none := by
  induction signals with
  | nil => intro p hp; simp [run, hp]
  | cons e es ih =>
    intro p hp
    have hstep : step p e = gracefulShutdown p := by
      rcases h e (by simp) with he | he <;> subst he <;> simp [step, hp]
    have hes : ∀ e ∈ es, e = .sigterm ∨ e = .sigint := fun e he => h e (by simp [he])
    have hrun : run p (e :: es) = run (gracefulShutdown p) es := by
      simp [run, hstep]
    obtain ⟨h1, h2, h3⟩ := ih hes (gracefulShutdown p) (by simp [gracefulShutdown, hp])
    rw [hrun, h1, h2, h3]
    refine ⟨?_, ?_, rfl⟩
    · simp [gracefulShutdown]
      omega
    · simp [gracefulShutdown, List.replicate_succ]

/-! ## The properties of the specification -/

/-- Claim C1 as amended: for every pair of filters, each absent or a string, the `data`
array of `GET /data` is the catalog filtered, in catalog order, by both constraints
together, where a filter constrains only when it is a non-empty string (then the lowered
field must equal the lowered filter); an absent or empty filter constrains nothing, and
with both omitted the whole catalog is returned. -/
theorem getData_filters (lower : String → String) (now : String)
    (type status : Option String) :
    (∃ res, getData lower now (type.map .str) (status.map .str) = .sent res ∧
      res.body.dataArray? =
        some (sampleData.filter fun e =>
          constrains lower Entity.type type e && constrains lower Entity.status status e)) ∧
    (∃ res, getData lower now none none = .sent res ∧
      res.body.dataArray? = some sampleData) := by
  constructor
  · exact ⟨_, getData_strings lower now type status, rfl⟩
  · exact ⟨_, rfl, rfl⟩

/-- Claim C1 as stated fails: with the type filter provided as the empty string the
handler returns the whole catalog, while no entity has a type equal to the empty string
ignoring case. -/
theorem getData_empty_type_not_exact :
    getData asciiLower "t" (some (.str "")) none =
      .sent { status := 200, body := .dataList 4 sampleData "t" } ∧
    (sampleData.filter fun e =>
        claimedConstrains asciiLower Entity.type (some "") e &&
        claimedConstrains asciiLower Entity.status none e) = [] ∧
    sampleData ≠
      (sampleData.filter fun e =>
        claimedConstrains asciiLower Entity.type (some "") e &&
        claimedConstrains asciiLower Entity.status none e) := by
  decide

/-- Claim C2: for every entity `e` of the catalog, `GET /data/:id` called with the decimal
text of `e.id` responds 200 with `data` equal to `e`; the ids of the catalog are pairwise
distinct. -/
theorem getDataById_catalog_id (now : String) (e : Entity) (h : e ∈ sampleData) :
    getDataById now (decimalText e.id) = { status := 200, body := .dataItem e now } ∧
    (getDataById now (decimalText e.id)).body.dataObject? = some e ∧
    (sampleData.map Entity.id).Nodup := by
  refine ⟨?_, ?_, by decide⟩
  · simp only [sampleData, List.mem_cons, List.mem_singleton, List.not_mem_nil, or_false] at h
    rcases h with rfl | rfl | rfl | rfl <;> rfl
  · simp only [sampleData, List.mem_cons, List.mem_singleton, List.not_mem_nil, or_false] at h
    rcases h with rfl | rfl | rfl | rfl <;> rfl

/-- Witness of C2 at the seed id 1: status 200 and `data` the entity of id 1. -/
theorem getDataById_catalog_id_witness :
    getDataById "t" (decimalText 1) =
      { status := 200
        body := .dataItem
          { id := 1, name := "Valhalla", type := "Platform", status := "active" } "t" } :=
  (getDataById_catalog_id "t"
    { id := 1, name := "Valhalla", type := "Platform", status := "active" } (by decide)).1

/-- Claim C3 as amended: for every integer `id` that is the id of no catalog entity,
`GET /data/:id` called with the decimal text of `id` responds 404 with `error` equal to
"Not Found" and `message` equal to "Item with id N not found", where N is the text of the
Number that `parseInt` returns; when the magnitude of `id` is at most `2^53` that text is
the decimal text of `id` itself. -/
theorem getDataById_unknown_id (now : String) (id : Int)
    (h : ∀ e ∈ sampleData, (e.id : Int) ≠ id) :
    (getDataById now (decimalText id)).status = 404 ∧
    (getDataById now (decimalText id)).body.error? = some "Not Found" ∧
    (getDataById now (decimalText id)).body.message? =
      some ("Item with id " ++ numberToString (parseInt (decimalText id)) ++ " not found") ∧
    (id.natAbs ≤ 2 ^ 53 →
      (getDataById now (decimalText id)).body.message? =
        some ("Item with id " ++ decimalText id ++ " not found")) := by
  rw [getDataById_miss now _ (strictEq_unknown id h)]
  refine ⟨rfl, rfl, rfl, ?_⟩
  intro hs
  rw [numberToString_parseInt_safe id hs]
  rfl

/-- Witness of C3 at the id 999. -/
theorem getDataById_unknown_id_witness :
    (getDataById "t" (decimalText 999)).status = 404 ∧
    (getDataById "t" (decimalText 999)).body.error? = some "Not Found" ∧
    (getDataById "t" (decimalText 999)).body.message? =
      some ("Item with id " ++ decimalText 999 ++ " not found") :=
  have h := getDataById_unknown_id "t" 999 (by decide)
  ⟨h.1, h.2.1, h.2.2.2 (by decide)⟩

/-- Claim C3 as stated fails: the integer 9007199254740993 is no catalog id, and the
message of the 404 response names 9007199254740992, the double that `parseInt` returns,
not the integer requested. -/
theorem getDataById_large_id_message :
    (∀ e ∈ sampleData, (e.id : Int) ≠ 9007199254740993) ∧
    decimalText 9007199254740993 = "9007199254740993" ∧
    (getDataById "t" (decimalText 9007199254740993)).body.message? =
      some "Item with id 9007199254740992 not found" ∧
    (getDataById "t" (decimalText 9007199254740993)).body.message? ≠
      some ("Item with id " ++ decimalText 9007199254740993 ++ " not found") := by
  have hd : decimalText 9007199254740993 = "9007199254740993" := by decide
  have hm : (getDataById "t" "9007199254740993").body.message? =
      some "Item with id 9007199254740992 not found" := by
    rw [getDataById_miss "t" _ (by rw [parseInt_example]; decide), parseInt_example]
    decide
  refine ⟨by decide, hd, ?_, ?_⟩
  · rw [hd, hm]
  · rw [hd, hm]
    decide

/-- Claim C4 as amended: `GET /data/:id` decides on the Number that `parseInt` reads from
the parameter. A parameter with no decimal digit after leading white space and an optional
sign (such as "abc") reads as NaN and gets 404 with the message "Item with id NaN not
found"; a parameter whose Number equals no catalog id gets 404 with `error` "Not Found";
a parameter whose Number is the id of a catalog entity, which a leading numeric prefix
suffices for, gets 200 with that entity. -/
theorem getDataById_by_parsed_number (now param : String) :
    ((∀ c, (numericStart param.data).head? = some c → isDecimalDigit c = false) →
      getDataById now param =
        { status := 404, body := .failure "Not Found" "Item with id NaN not found" now }) ∧
    ((∀ e ∈ sampleData, JSNumber.strictEq (JSNumber.ofNat e.id) (parseInt param) = false) →
      (getDataById now param).status = 404 ∧
      (getDataById now param).body.error? = some "Not Found") ∧
    (∀ e ∈ sampleData, parseInt param = JSNumber.ofNat e.id →
      getDataById now param = { status := 200, body := .dataItem e now }) := by
  refine ⟨?_, ?_, ?_⟩
  · intro h
    have hp := parseInt_no_digit param h
    rw [getDataById_miss now param (by rw [hp]; intro d _; rfl), hp]
    rfl
  · intro h
    rw [getDataById_miss now param h]
    exact ⟨rfl, rfl⟩
  · intro e he hp
    exact getDataById_hit now param e he hp

/-- Witness of C4: "abc" gets the NaN 404, "7up" gets 404, "2.5" gets 200 with entity 2. -/
theorem getDataById_by_parsed_number_witness :
    getDataById "t" "abc" =
      { status := 404, body := .failure "Not Found" "Item with id NaN not found" "t" } ∧
    ((getDataById "t" "7up").status = 404 ∧
      (getDataById "t" "7up").body.error? = some "Not Found") ∧
    getDataById "t" "2.5" =
      { status := 200
        body := .dataItem { id := 2, name := "Odin", type := "Service", status := "active" } "t" } :=
  ⟨(getDataById_by_parsed_number "t" "abc").1 (by decide),
    (getDataById_by_parsed_number "t" "7up").2.1 (by decide),
    (getDataById_by_parsed_number "t" "2.5").2.2 _ (by decide) (by decide)⟩

/-- Claim C4 as stated fails: "1abc" is the decimal text of no integer, yet the handler
responds 200 with the catalog entity of id 1. -/
theorem getDataById_numeric_prefix_found :
    (∀ z : Int, decimalText z ≠ "1abc") ∧
    (getDataById "t" "1abc").status = 200 ∧
    (getDataById "t" "1abc").body.dataObject? =
      some { id := 1, name := "Valhalla", type := "Platform", status := "active" } := by
  refine ⟨?_, by decide, by decide⟩
  intro z hz
  have h := decimalText_chars z 'a' (by rw [hz]; decide)
  revert h
  decide

/-- Claim C5 as amended: for every pair of query filters, each absent or a string,
`GET /data` responds 200 with a body whose `count` is the length of its `data` array; when
nothing matches (here the type filter "Gateway") the response is still 200, with `count` 0
and an empty `data` array. -/
theorem getData_count (lower : String → String) (now : String)
    (type status : Option String) :
    (∃ d, getData lower now (type.map .str) (status.map .str) =
      .sent { status := 200, body := .dataList d.length d now }) ∧
    (∀ res, getData lower now (type.map .str) (status.map .str) = .sent res →
      res.status = 200 ∧ res.body.count? = res.body.dataArray?.map List.length ∧
      res.body.dataArray? ≠ none) ∧
    getData asciiLower now (some (.str "Gateway")) none =
      .sent { status := 200, body := .dataList 0 [] now } := by
  refine ⟨⟨_, getData_strings lower now type status⟩, ?_, ?_⟩
  · intro res h
    rw [getData_strings lower now type status] at h
    injection h with h
    subst h
    exact ⟨rfl, rfl, by simp [Body.dataArray?]⟩
  · simp [getData, filterStep, truthy]
    decide

/-- Claim C5 as stated fails: for `GET /api/v1/data?type=a&type=b` the type filter is an
array, the filter callback throws a TypeError and the server answers 500 with the error
body, not 200 with a `count`. -/
theorem getData_repeated_key_throws :
    getData asciiLower "t" (some .nonString) none =
      .threw { name := "TypeError", message := "type.toLowerCase is not a function" } ∧
    referencePlatform.routeMatches .apiData repeatedTypeRequest = true ∧
    (app referencePlatform sampleEnv repeatedTypeRequest freshState).1 =
      { status := 500
        body := .failure "Internal Server Error" "type.toLowerCase is not a function"
          sampleEnv.now } ∧
    (app referencePlatform sampleEnv repeatedTypeRequest freshState).1.status ≠ 200 := by
  decide

/-- Claim C6 as amended: for every request that `helmet()`, `cors()` and `express.json()`
pass on and that no registered route matches, the application responds through the 404
handler: status 404, `error` "Not Found", `message` "Cannot METHOD URL" built from the
method and the url of the request. -/
theorem app_unmatched_not_found (pf : Platform) (env : Env) (req : Request)
    (st : ServerState)
    (hh : pf.helmet req = .next) (hc : pf.cors req = .next) (hj : pf.json req = .next)
    (hr : ∀ r, pf.routeMatches r req = false) :
    (app pf env req st).1 = notFoundHandler env req ∧
    (app pf env req st).1.status = 404 ∧
    (app pf env req st).1.body.error? = some "Not Found" ∧
    (app pf env req st).1.body.message? = some ("Cannot " ++ req.method ++ " " ++ req.url) := by
  have h : (app pf env req st).1 = notFoundHandler env req := by
    simp [app, hh, hc, hj, Outcome.andThen, routes_unmatched pf env req hr]
  rw [h]
  exact ⟨rfl, rfl, rfl, rfl⟩

/-- Witness of C6 at `GET /nonexistent`. -/
theorem app_unmatched_not_found_witness :
    (app referencePlatform sampleEnv (getRequest "/nonexistent") freshState).1.status = 404 ∧
    (app referencePlatform sampleEnv (getRequest "/nonexistent") freshState).1.body.error? =
      some "Not Found" ∧
    (app referencePlatform sampleEnv (getRequest "/nonexistent") freshState).1.body.message? =
      some "Cannot GET /nonexistent" :=
  (app_unmatched_not_found referencePlatform sampleEnv (getRequest "/nonexistent") freshState
    rfl rfl rfl (fun r => by cases r <;> decide)).2

/-- Claim C6 as stated fails: `OPTIONS /nonexistent` is matched by no registered route, yet
`cors()`, which runs before the routes, answers it with 204 and the 404 handler is never
reached. -/
theorem app_options_preflight :
    (∀ r, referencePlatform.routeMatches r (optionsRequest "/nonexistent") = false) ∧
    (app referencePlatform sampleEnv (optionsRequest "/nonexistent") freshState).1 =
      { status := 204, body := .empty } ∧
    (app referencePlatform sampleEnv (optionsRequest "/nonexistent") freshState).1.status
      ≠ 404 := by
  refine ⟨?_, by decide, by decide⟩
  intro r
  cases r <;> decide

/-- Claim C7 as amended: for every error reaching the error-handling middleware the
response status is `err.status` when that is a number from 200 to 999, and 500 when it is
absent or 0; when this status carries a body (every one of them but 204, 205 and 304) the
body has `error` "Internal Server Error", a `message` and a `timestamp`, and the `message`
is the generic text "An error occurred" whenever `NODE_ENV` is `production`, whatever the
status, and the raw `err.message` in every other environment. For a number below 100 or
above 999 `res.status(..).json(..)` throws and the final handler of Express answers 500
with its HTML page. -/
theorem errorHandler_response (env : Env) (err : JSError) :
    (∀ s, err.status = some s → 200 ≤ s → s ≤ 999 → (errorResponse env err).status = s) ∧
    (err.status = none ∨ err.status = some 0 → (errorResponse env err).status = 500) ∧
    ((err.status = none ∨ err.status = some 0 ∨
        ∃ s, err.status = some s ∧ 200 ≤ s ∧ s ≤ 999 ∧ s ≠ 204 ∧ s ≠ 205 ∧ s ≠ 304) →
      (errorResponse env err).body.error? = some "Internal Server Error" ∧
      (errorResponse env err).body.timestamp? = some env.now ∧
      (env.nodeEnv = some "production" →
        (errorResponse env err).body.message? = some "An error occurred") ∧
      (env.nodeEnv ≠ some "production" →
        (errorResponse env err).body.message? = some err.message)) ∧
    (∀ s, err.status = some s → s ≠ 0 → (s < 100 ∨ 999 < s) →
      errorResponse env err = { status := 500, body := .errorPage }) := by
  refine ⟨?_, ?_, ?_, ?_⟩
  · intro s hs h1 h2
    have h0 : s ≠ 0 := by omega
    have hst : statusOr500 err.status = s := by simp [statusOr500, hs, h0]
    rw [errorHandler_sendable env err (by rw [hst]; omega), hst]
  · intro h
    have hst : statusOr500 err.status = 500 := by
      rcases h with h | h <;> simp [statusOr500, h]
    rw [errorHandler_sendable env err (by rw [hst]; decide), hst]
  · intro h
    have hr : 100 ≤ statusOr500 err.status ∧ statusOr500 err.status ≤ 999 ∧
        bodiless (statusOr500 err.status) = false := by
      rcases h with h | h | ⟨s, hs, h1, h2, h204, h205, h304⟩
      · simp [statusOr500, h, bodiless]
      · simp [statusOr500, h, bodiless]
      · have h0 : s ≠ 0 := by omega
        have hst : statusOr500 err.status = s := by simp [statusOr500, hs, h0]
        rw [hst]
        exact ⟨by omega, h2, bodiless_false s h1 h204 h205 h304⟩
    rw [errorHandler_with_body env err ⟨hr.1, hr.2.1⟩ hr.2.2]
    refine ⟨rfl, rfl, ?_, ?_⟩
    · intro hp
      simp [Body.message?, hp]
    · intro hp
      simp [Body.message?, hp]
  · intro s hs h0 hout
    have hst : statusOr500 err.status = s := by simp [statusOr500, hs, h0]
    rw [errorHandler_not_sendable env err (by rw [hst]; omega)]
    rfl

/-- Witness of C7: a 404 error in production and outside it, an error without status,
and an error with the status 99. -/
theorem errorHandler_response_witness :
    (errorResponse productionEnv notFoundError).status = 404 ∧
    (errorResponse sampleEnv { notFoundError with status := none }).status = 500 ∧
    (errorResponse productionEnv notFoundError).body.message? = some "An error occurred" ∧
    (errorResponse sampleEnv notFoundError).body.message? = some "User 7 does not exist" ∧
    errorResponse sampleEnv oddStatusError = { status := 500, body := .errorPage } :=
  ⟨(errorHandler_response productionEnv notFoundError).1 404 rfl (by decide) (by decide),
    (errorHandler_response sampleEnv { notFoundError with status := none }).2.1 (Or.inl rfl),
    ((errorHandler_response productionEnv notFoundError).2.2.1
      (Or.inr (Or.inr ⟨404, rfl, by decide, by decide, by decide, by decide,
        by decide⟩))).2.2.1 rfl,
    ((errorHandler_response sampleEnv notFoundError).2.2.1
      (Or.inr (Or.inr ⟨404, rfl, by decide, by decide, by decide, by decide,
        by decide⟩))).2.2.2 (by decide),
    (errorHandler_response sampleEnv oddStatusError).2.2.2 99 rfl (by decide)
      (Or.inl (by decide))⟩

/-- Claim C7 as stated fails: in production an error with status 404 still gets the
generic message, not its own; an error whose status is set to 99 is answered with status
500 by the final handler, without an `error` field; and an error whose status is set to
204 is answered with 204 and no body. -/
theorem errorHandler_production_redacts_4xx :
    productionEnv.nodeEnv = some "production" ∧
    (errorResponse productionEnv notFoundError).status = 404 ∧
    (errorResponse productionEnv notFoundError).body.message? = some "An error occurred" ∧
    (errorResponse productionEnv notFoundError).body.message? ≠
      some notFoundError.message ∧
    oddStatusError.status = some 99 ∧
    (errorResponse sampleEnv oddStatusError).status = 500 ∧
    (errorResponse sampleEnv oddStatusError).body.error? = none ∧
    errorResponse sampleEnv noContentError = { status := 204, body := .empty } := by
  decide

/-- Claim C8 as amended: every termination signal delivered to the running process runs
`gracefulShutdown` once more; after `n` signals in succession `server.close` has been
called `n` times and `n` force-exit timers of 10 seconds are armed. -/
theorem gracefulShutdown_per_signal (signals : List Event)
    (h : ∀ e ∈ signals, e = .sigterm ∨ e = .sigint) :
    (run listening signals).closeCalls = signals.length ∧
    (run listening signals).forceTimers = List.replicate signals.length 10000 := by
  obtain ⟨h1, h2, _⟩ := run_signals signals h listening rfl
  rw [h1, h2]
  simp [listening]

/-- Witness of C8: SIGTERM then SIGINT. -/
theorem gracefulShutdown_per_signal_witness :
    (run listening [.sigterm, .sigint]).closeCalls = 2 ∧
    (run listening [.sigterm, .sigint]).forceTimers = [10000, 10000] :=
  gracefulShutdown_per_signal [.sigterm, .sigint] (by decide)

/-- Claim C8 as stated fails: after two SIGTERM in succession `server.close` has been
called twice and two timers are armed, not one. -/
theorem gracefulShutdown_twice :
    (run listening [.sigterm, .sigterm]).closeCalls = 2 ∧
    (run listening [.sigterm, .sigterm]).forceTimers.length = 2 ∧
    (run listening [.sigterm, .sigterm]).closeCalls ≠ 1 := by
  decide

/-- Claim C9 fails on the code: handling a request never changes the registry, so no
counter of `http_requests_total` grows by 1 and the histogram receives no observation;
after `GET /health` (200) on a fresh server the counter for its labels is still 0. -/
theorem app_never_records (pf : Platform) (env : Env) (req : Request) (st : ServerState) :
    (app pf env req st).2.registry = st.registry ∧
    (∀ l, (app pf env req st).2.registry.total l ≠ st.registry.total l + 1) ∧
    (app pf env req st).2.registry.observations ≠ st.registry.observations + 1 ∧
    (app referencePlatform sampleEnv (getRequest "/health") freshState).1.status = 200 ∧
    (app referencePlatform sampleEnv (getRequest "/health") freshState).2.registry.total
      { method := "GET", route := "/health", statusCode := "200" } = 0 := by
  have h : (app pf env req st).2.registry = st.registry := by
    unfold app
    split
    · rfl
    · rfl
    · split <;> rfl
  refine ⟨h, ?_, ?_, by decide, by decide⟩
  · intro l
    rw [h]
    omega
  · rw [h]
    omega

/-- Claim C10: in `GET /data` a filter given as the empty string is treated as an omitted
filter, for the type and for the status filter, whatever the other filter is; with the
type filter empty and no status filter the whole catalog is returned, with `count` 4. -/
theorem getData_empty_filter_omitted (lower : String → String) (now : String)
    (f : Option QueryValue) :
    getData lower now (some (.str "")) f = getData lower now none f ∧
    getData lower now f (some (.str "")) = getData lower now f none ∧
    getData lower now (some (.str "")) none =
      .sent { status := 200, body := .dataList 4 sampleData now } := by
  refine ⟨?_, ?_, ?_⟩
  · simp [getData, filterStep, truthy]
  · have h : ∀ l, filterStep lower Entity.status (some (.str "")) l =
        filterStep lower Entity.status none l := by
      intro l
      simp [filterStep, truthy]
    simp only [getData, h]
  · simp [getData, filterStep, truthy]
    rfl

end Valhalla
